import Mathlib

/-!
Shallow embedding of the sector money-flow aggregation engine of
src/PolygonMoneyFlowAnalysis.py.

Prices and market capitalizations are modelled as rationals; a value the
market-data client could not supply is `none`.  Python dictionaries keyed by
strings are modelled as association lists, which preserves insertion order
(the iteration order of a Python dict).  Calendar dates are modelled as
integers counting days, so the strftime formatting of the source is dropped
while the day arithmetic of `timedelta` is kept.
-/

namespace MoneyFlow

/-- The three lookback windows "1d", "1w" and "1m" of the source. -/
inductive Window : Type
  | w1d
  | w1w
  | w1m
deriving DecidableEq

/-- Module-level `date_offsets`: the three historical as-of dates, computed
from the process-start clock `startDay` (the module-level `today`), with
`timedelta(days=1)`, `timedelta(weeks=1)` and `timedelta(weeks=4)`. -/
def date_offsets (startDay : ℤ) : Window → ℤ
  | .w1d => startDay - 1
  | .w1w => startDay - 7
  | .w1m => startDay - 28

/-- The per-ticker record built by `collect_sector_data`: current price and
market cap are always present in the record; each window's historical price
and derived historical market cap may be `None`. -/
structure TickerData where
  price_today : ℚ
  market_cap_today : ℚ
  price_1d : Option ℚ
  market_cap_1d : Option ℚ
  price_1w : Option ℚ
  market_cap_1w : Option ℚ
  price_1m : Option ℚ
  market_cap_1m : Option ℚ
deriving DecidableEq

/-- Selector for the per-window derived market cap field `market_cap_<label>`. -/
def TickerData.mcap (d : TickerData) : Window → Option ℚ
  | .w1d => d.market_cap_1d
  | .w1w => d.market_cap_1w
  | .w1m => d.market_cap_1m

/-- One sector's inner dict: ticker name to ticker data, in insertion order. -/
abbrev SectorTickers := List (String × TickerData)

/-- The nested `gics_sectors` dictionary: sector name to its ticker dict. -/
abbrev GicsData := List (String × SectorTickers)

/-- The module-level `gics_sectors` initializer: the six tracked GICS sectors
(the commented-out ones of the source are absent), each with an empty dict. -/
def gics_sectors : GicsData :=
  [("Information Technology", []),
   ("Consumer Discretionary", []),
   ("Consumer Staples", []),
   ("Energy", []),
   ("Utilities", []),
   ("Materials", [])]

/-- One row appended to `flow_result[label]` by `compute_money_flows`. -/
structure FlowRow where
  sector : String
  pct_change : ℚ
  abs_change_millions : ℚ
deriving DecidableEq

/-- The body of the inner loop of `compute_money_flows`: reads
`market_cap_today` and `market_cap_<label>` of one ticker and, when both are
truthy (present and nonzero, Python falsiness of `None` and `0.0`), appends
the percentage change and the absolute change to the two accumulator lists. -/
def changesStep (w : Window) (acc : List ℚ × List ℚ) (p : String × TickerData) :
    List ℚ × List ℚ :=
  let today := p.2.market_cap_today
  match p.2.mcap w with
  | some past =>
      if today ≠ 0 ∧ past ≠ 0 then
        (acc.1 ++ [((today - past) / past) * 100], acc.2 ++ [today - past])
      else acc
  | none => acc

/-- The `pct_changes` and `absolute_changes` lists one sector's inner loop of
`compute_money_flows` builds for one window. -/
def collectChanges (tickers : SectorTickers) (w : Window) : List ℚ × List ℚ :=
  tickers.foldl (changesStep w) ([], [])

/-- One sector's entry for one window, as `compute_money_flows` computes it:
`avg_pct_change` is `sum / len` when the list is nonempty and `0` otherwise;
`total_abs_change` is the sum (or `0` for an empty list) divided by
`1_000_000`. -/
def sectorRow (sector : String) (tickers : SectorTickers) (w : Window) : FlowRow :=
  let pct_changes := (collectChanges tickers w).1
  let absolute_changes := (collectChanges tickers w).2
  { sector := sector
    pct_change :=
      if pct_changes = [] then 0 else pct_changes.sum / (pct_changes.length : ℚ)
    abs_change_millions :=
      (if absolute_changes = [] then 0 else absolute_changes.sum) / 1000000 }

/-- `compute_money_flows` restricted to one window: the source appends, for
each sector of `gics_data` in dict order, one row to `flow_result[label]`,
so `flow_result[label]` is the map of `sectorRow` over the sector list. -/
def compute_money_flows (g : GicsData) (w : Window) : List FlowRow :=
  g.map (fun p => sectorRow p.1 p.2 w)

/-- The (pct, abs) contribution of one ticker to one window: present exactly
when `market_cap_today` and `market_cap_<label>` are both present and
nonzero. -/
def contribOne (w : Window) (p : String × TickerData) : Option (ℚ × ℚ) :=
  match p.2.mcap w with
  | some past =>
      if p.2.market_cap_today ≠ 0 ∧ past ≠ 0 then
        some (((p.2.market_cap_today - past) / past) * 100,
              p.2.market_cap_today - past)
      else none
  | none => none

/-- The (pct, abs) pairs of the tickers of a sector that contribute to a
window. -/
def contribPairs (tickers : SectorTickers) (w : Window) : List (ℚ × ℚ) :=
  tickers.filterMap (contribOne w)

/-- Arithmetic mean of a list of rationals, 0 for the empty list (the spec's
"arithmetic mean of the collected pct values; 0 if the collected set is
empty"). -/
def listMean (l : List ℚ) : ℚ :=
  if l = [] then 0 else l.sum / (l.length : ℚ)

/-- One SectorAggregate row as section 4.2 of the spec words it: the mean of
the contributed percentage changes, and the sum of the contributed absolute
changes divided by 1,000,000. -/
def spec_sector_row (sector : String) (tickers : SectorTickers) (w : Window) :
    FlowRow :=
  { sector := sector
    pct_change := listMean ((contribPairs tickers w).map Prod.fst)
    abs_change_millions := ((contribPairs tickers w).map Prod.snd).sum / 1000000 }

/-- The Snapshot Provider as one refresh cycle observes it: `price t d` is
`get_stock_price(t, date)` (with `none` for the no-date current-price call)
and `cap t` is `get_market_cap(t)`; `none` models every failure path of those
two functions (exception, empty aggregate list, missing attribute). -/
structure Provider where
  price : String → Option ℤ → Option ℚ
  cap : String → Option ℚ

/-- Ticker normalization of `collect_sector_data`:
`row['Symbol'].replace('.', '-')` (a single-character replace, so a
character-wise map). -/
def normalizeTicker (s : String) : String :=
  String.mk (s.data.map (fun ch => if ch = '.' then '-' else ch))

/-- The Historical Cap Estimator of the source (inline in
`collect_sector_data`): the ticker-level guard
`if not current_price or not current_cap: continue` makes the derived cap
unavailable when the current price or cap is missing or zero (Python
falsiness), and the window-level guard `if hist_price:` makes it unavailable
when the historical price is missing or zero; otherwise it is
`(hist_price / current_price) * current_cap`. -/
def estimate_historical_cap (current_price current_cap historical_price : Option ℚ) :
    Option ℚ :=
  match current_price, current_cap with
  | some cp, some cc =>
      if cp = 0 ∨ cc = 0 then none
      else
        match historical_price with
        | some hp => if hp = 0 then none else some ((hp / cp) * cc)
        | none => none
  | _, _ => none

/-- The `price_<label>` field stored by `collect_sector_data`: the fetched
historical price when truthy, else `None`. -/
def truthyOpt (x : Option ℚ) : Option ℚ :=
  match x with
  | some v => if v = 0 then none else some v
  | none => none

/-- The `data` dict `collect_sector_data` builds for one usable ticker, with
`cp` and `cc` the (truthy) current price and market cap. -/
def buildData (P : Provider) (offs : Window → ℤ) (ticker : String) (cp cc : ℚ) :
    TickerData :=
  { price_today := cp
    market_cap_today := cc
    price_1d := truthyOpt (P.price ticker (some (offs .w1d)))
    market_cap_1d :=
      estimate_historical_cap (some cp) (some cc) (P.price ticker (some (offs .w1d)))
    price_1w := truthyOpt (P.price ticker (some (offs .w1w)))
    market_cap_1w :=
      estimate_historical_cap (some cp) (some cc) (P.price ticker (some (offs .w1w)))
    price_1m := truthyOpt (P.price ticker (some (offs .w1m)))
    market_cap_1m :=
      estimate_historical_cap (some cp) (some cc) (P.price ticker (some (offs .w1m))) }

/-- Python dict assignment `d[t] = data` on an insertion-ordered dict:
overwrite in place when the key exists, append otherwise. -/
def setTicker (ts : SectorTickers) (t : String) (d : TickerData) : SectorTickers :=
  match ts with
  | [] => [(t, d)]
  | q :: rest => if q.1 = t then (t, d) :: rest else q :: setTicker rest t d

/-- `gics_sectors[sector][ticker] = data`: update the inner dict of the
matching sector key, leaving the dict unchanged when the key is absent. -/
def setSectorTicker (g : GicsData) (s t : String) (d : TickerData) : GicsData :=
  match g with
  | [] => []
  | q :: rest =>
      if q.1 = s then (s, setTicker q.2 t d) :: rest else q :: setSectorTicker rest s t d

/-- Key membership test of a string-keyed dict (`sector not in gics_sectors`). -/
def hasKey (g : GicsData) (s : String) : Bool :=
  match g with
  | [] => false
  | q :: rest => if q.1 = s then true else hasKey rest s

/-- One iteration of the row loop of `collect_sector_data`: skip a sector
outside the tracked dict, skip a ticker whose current price or market cap is
missing or zero, otherwise store the built data under the normalized
ticker. -/
def processRow (P : Provider) (offs : Window → ℤ) (g : GicsData)
    (symbol sector : String) : GicsData :=
  let ticker := normalizeTicker symbol
  if hasKey g sector then
    match P.price ticker none, P.cap ticker with
    | some cp, some cc =>
        if cp = 0 ∨ cc = 0 then g
        else setSectorTicker g sector ticker (buildData P offs ticker cp cc)
    | _, _ => g
  else g

/-- `collect_sector_data`: `constituents` is the result of
`fetch_snp500_data` (`none` when the fetch failed).  The first component is
the module-global `gics_sectors` dict after the call (unchanged on failure,
folded over the constituent rows on success); the second is the function's
return value (`{}` on failure, the same global dict on success). -/
def collect_sector_data (P : Provider) (offs : Window → ℤ)
    (constituents : Option (List (String × String))) (sectors : GicsData) :
    GicsData × GicsData :=
  match constituents with
  | none => (sectors, [])
  | some rows =>
      let folded := rows.foldl (fun acc row => processRow P offs acc row.1 row.2) sectors
      (folded, folded)

/-- The process-wide mutable state of the dashboard: the module-global
`gics_sectors` accumulator, the `gics_data` binding, the `money_flows`
binding the charts read, and the timestamp of the last render. -/
structure DashState where
  sectors : GicsData
  gics_data : GicsData
  money_flows : Window → List FlowRow
  timestamp : ℤ

/-- What the outside world supplies to one refresh cycle: the network
responses of the Snapshot Provider, the constituent fetch result, and the
wall clock at the tick. -/
structure CycleEnv where
  provider : Provider
  constituents : Option (List (String × String))
  clock : ℤ

/-- One refresh cycle of `update_charts` (the `n_intervals > 0` branch, which
is also what the module-load cycle runs): rebind `gics_data` to the value of
`collect_sector_data`, recompute `money_flows` from it, and read the clock
for the displayed timestamp. -/
def refresh (offs : Window → ℤ) (e : CycleEnv) (st : DashState) : DashState :=
  let r := collect_sector_data e.provider offs e.constituents st.sectors
  { sectors := r.1
    gics_data := r.2
    money_flows := fun w => compute_money_flows r.2 w
    timestamp := e.clock }

/-- The process state just before the module-load data collection: the six
empty tracked sectors, no collected data, no rows. -/
def initState (startDay : ℤ) : DashState :=
  { sectors := gics_sectors
    gics_data := []
    money_flows := fun _ => []
    timestamp := startDay }

/-- The dashboard state after cycle `n`: cycle 0 is the module-load
collection, cycle `n + 1` the n-th timer tick of `update_charts`.  The
as-of date table every cycle uses is `date_offsets startDay`, computed once
from the module-load clock. -/
def appState (startDay : ℤ) (env : ℕ → CycleEnv) : ℕ → DashState
  | 0 => refresh (date_offsets startDay) (env 0) (initState startDay)
  | n + 1 => refresh (date_offsets startDay) (env (n + 1)) (appState startDay env n)

/-- A provider that answers only for ticker "AAA": current price 10, current
market cap 1000, historical price 5 for every as-of date. -/
def P1 : Provider :=
  { price := fun t d =>
      if t = "AAA" then (match d with | none => some 10 | some _ => some 5) else none
    cap := fun t => if t = "AAA" then some 1000 else none }

/-- A provider for which every request fails. -/
def P0 : Provider :=
  { price := fun _ _ => none
    cap := fun _ => none }

/-- A cycle in which the constituent fetch succeeds with the single row
("AAA", "Energy") and every snapshot request succeeds. -/
def env1 : CycleEnv :=
  { provider := P1, constituents := some [("AAA", "Energy")], clock := 0 }

/-- A cycle in which the constituent fetch itself fails
(`fetch_snp500_data` returns `None`). -/
def envFail : CycleEnv :=
  { provider := P0, constituents := none, clock := 1 }

/-- A cycle in which the constituent fetch succeeds but every snapshot
request fails, so every ticker of the cycle is skipped. -/
def envSkip : CycleEnv :=
  { provider := P0, constituents := some [("AAA", "Energy")], clock := 1 }

/-- The ticker data collected for "AAA" under `P1`: current cap 1000,
derived historical cap (5 / 10) * 1000 = 500 for every window. -/
def data1 : TickerData :=
  { price_today := 10, market_cap_today := 1000
    price_1d := some 5, market_cap_1d := some 500
    price_1w := some 5, market_cap_1w := some 500
    price_1m := some 5, market_cap_1m := some 500 }

/-- The sector dict after the `env1` cycle: "AAA" filed under Energy. -/
def sectors1 : GicsData :=
  [("Information Technology", []),
   ("Consumer Discretionary", []),
   ("Consumer Staples", []),
   ("Energy", [("AAA", data1)]),
   ("Utilities", []),
   ("Materials", [])]

/-- The money-flow rows of any window computed over `sectors1`: Energy shows
a 100 percent rise of 500 dollars (1/2000 of a million); every other sector
a zero row. -/
def rows1 : List FlowRow :=
  [⟨"Information Technology", 0, 0⟩, ⟨"Consumer Discretionary", 0, 0⟩,
   ⟨"Consumer Staples", 0, 0⟩, ⟨"Energy", 100, 1/2000⟩,
   ⟨"Utilities", 0, 0⟩, ⟨"Materials", 0, 0⟩]

/-- The money-flow rows computed over the pristine `gics_sectors` dict: one
zero row per tracked sector. -/
def rows0 : List FlowRow :=
  [⟨"Information Technology", 0, 0⟩, ⟨"Consumer Discretionary", 0, 0⟩,
   ⟨"Consumer Staples", 0, 0⟩, ⟨"Energy", 0, 0⟩,
   ⟨"Utilities", 0, 0⟩, ⟨"Materials", 0, 0⟩]

/-- A ticker whose derived cap is present for the 1d window and absent for
the 1m window (partial participation fixture). -/
def dWit : TickerData :=
  { price_today := 10, market_cap_today := 1000
    price_1d := some 5, market_cap_1d := some 500
    price_1w := none, market_cap_1w := none
    price_1m := none, market_cap_1m := none }

/-- The Python truthiness test the inner loop of `compute_money_flows`
applies to one ticker and one window: `market_cap_today` and
`market_cap_<label>` both present and nonzero. -/
def usableFor (w : Window) (p : String × TickerData) : Bool :=
  decide (p.2.market_cap_today ≠ 0) &&
    (match p.2.mcap w with
     | some past => decide (past ≠ 0)
     | none => false)

/-- The denominators with which the percentage division of
`compute_money_flows` is actually performed for a sector and a window. -/
def denominators (ts : SectorTickers) (w : Window) : List ℚ :=
  ts.filterMap (fun p =>
    match p.2.mcap w with
    | some past =>
        if p.2.market_cap_today ≠ 0 ∧ past ≠ 0 then some past else none
    | none => none)

/-- The as-of dates `collect_sector_data` passes to `get_stock_price` for one
constituent row: none when the row is skipped before the window loop (sector
untracked, current price or cap missing or zero), and the three dates of the
`date_offsets` table otherwise.  Mirrors the control flow of `processRow`. -/
def rowHistDates (P : Provider) (offs : Window → ℤ) (g : GicsData)
    (symbol sector : String) : List ℤ :=
  let ticker := normalizeTicker symbol
  if hasKey g sector then
    match P.price ticker none, P.cap ticker with
    | some cp, some cc =>
        if cp = 0 ∨ cc = 0 then [] else [offs .w1d, offs .w1w, offs .w1m]
    | _, _ => []
  else []

/-- The as-of dates queried over a whole constituent list, threading the
sector dict exactly as the row loop of `collect_sector_data` does. -/
def rowsHistDates (P : Provider) (offs : Window → ℤ) :
    List (String × String) → GicsData → List ℤ
  | [], _ => []
  | row :: rest, g =>
      rowHistDates P offs g row.1 row.2 ++
        rowsHistDates P offs rest (processRow P offs g row.1 row.2)

/-- The as-of dates one whole refresh cycle queries: none when the
constituent fetch fails (the row loop never runs). -/
def cycleHistDates (P : Provider) (offs : Window → ℤ)
    (constituents : Option (List (String × String))) (sectors : GicsData) : List ℤ :=
  match constituents with
  | none => []
  | some rows => rowsHistDates P offs rows sectors

/-- The as-of dates cycle `n` of the running app queries from the Snapshot
Provider. -/
def appCycleHistDates (startDay : ℤ) (env : ℕ → CycleEnv) : ℕ → List ℤ
  | 0 =>
      cycleHistDates (env 0).provider (date_offsets startDay) (env 0).constituents
        (initState startDay).sectors
  | n + 1 =>
      cycleHistDates (env (n + 1)).provider (date_offsets startDay)
        (env (n + 1)).constituents (appState startDay env n).sectors

/-- The same environment with the wall clock of every tick replaced: the
network answers are unchanged, only the times at which the timer fires
differ. -/
def reclock (env : ℕ → CycleEnv) (c : ℕ → ℤ) : ℕ → CycleEnv :=
  fun n => { provider := (env n).provider
             constituents := (env n).constituents
             clock := c n }

/-! ### Helper lemmas -/

theorem foldl_changesStep (w : Window) (ts : SectorTickers) (acc : List ℚ × List ℚ) :
    ts.foldl (changesStep w) acc =
      (acc.1 ++ (contribPairs ts w).map Prod.fst,
       acc.2 ++ (contribPairs ts w).map Prod.snd) := by
  induction ts generalizing acc with
  | nil => simp [contribPairs]
  | cons p ts ih =>
      rw [List.foldl_cons, ih]
      unfold changesStep contribPairs contribOne
      cases h : p.2.mcap w with
      | none => simp [h, contribPairs, contribOne]
      | some past =>
          by_cases hcond : p.2.market_cap_today ≠ 0 ∧ past ≠ 0
          · simp [h, hcond, contribPairs, contribOne]
          · simp [h, hcond, contribPairs, contribOne]

theorem collectChanges_eq (ts : SectorTickers) (w : Window) :
    collectChanges ts w =
      ((contribPairs ts w).map Prod.fst, (contribPairs ts w).map Prod.snd) := by
  unfold collectChanges
  rw [foldl_changesStep]
  simp

theorem sectorRow_eq_spec (s : String) (ts : SectorTickers) (w : Window) :
    sectorRow s ts w = spec_sector_row s ts w := by
  unfold sectorRow spec_sector_row listMean
  rw [collectChanges_eq]
  by_cases h : (contribPairs ts w).map Prod.snd = []
  · simp [h]
  · simp [h]

theorem spec_row_empty (s : String) (ts : SectorTickers) (w : Window)
    (h : contribPairs ts w = []) : spec_sector_row s ts w = ⟨s, 0, 0⟩ := by
  unfold spec_sector_row listMean
  rw [h]
  simp

theorem normalizeTicker_AAA : normalizeTicker "AAA" = "AAA" := rfl

theorem processRow_skip (P : Provider) (offs : Window → ℤ) (g : GicsData)
    (sym sec : String)
    (h : P.price (normalizeTicker sym) none = none
       ∨ P.price (normalizeTicker sym) none = some 0
       ∨ P.cap (normalizeTicker sym) = none
       ∨ P.cap (normalizeTicker sym) = some 0) :
    processRow P offs g sym sec = g := by
  simp only [processRow]
  rcases h with h | h | h | h
  · simp [h]
  · rw [h]
    cases hc : P.cap (normalizeTicker sym) <;> simp [hc]
  · cases hp : P.price (normalizeTicker sym) none <;> simp [h, hp]
  · rw [h]
    cases hp : P.price (normalizeTicker sym) none <;> simp [hp]

theorem foldl_processRow_P0 (offs : Window → ℤ) (rows : List (String × String))
    (s : GicsData) :
    rows.foldl (fun acc row => processRow P0 offs acc row.1 row.2) s = s := by
  induction rows generalizing s with
  | nil => rfl
  | cons r rest ih =>
      rw [List.foldl_cons, processRow_skip P0 offs s r.1 r.2 (Or.inl rfl), ih]

theorem collect_P0 (offs : Window → ℤ) (rows : List (String × String)) (s : GicsData) :
    collect_sector_data P0 offs (some rows) s = (s, s) := by
  simp only [collect_sector_data]
  rw [foldl_processRow_P0]

theorem collect_env1_eval :
    collect_sector_data P1 (date_offsets 0) (some [("AAA", "Energy")]) gics_sectors =
      (sectors1, sectors1) := by
  simp [collect_sector_data, processRow, normalizeTicker_AAA, hasKey, buildData,
    estimate_historical_cap, truthyOpt, setSectorTicker, setTicker, gics_sectors,
    P1, date_offsets, sectors1, data1]
  norm_num

theorem cycle1_sectors :
    (refresh (date_offsets 0) env1 (initState 0)).sectors = sectors1 := by
  show (collect_sector_data P1 (date_offsets 0) (some [("AAA", "Energy")])
    gics_sectors).1 = sectors1
  rw [collect_env1_eval]

theorem compute_sectors1 (w : Window) : compute_money_flows sectors1 w = rows1 := by
  cases w <;>
    · simp [compute_money_flows, sectorRow, collectChanges, changesStep,
        TickerData.mcap, sectors1, data1, rows1]
      norm_num

theorem compute_gics0 (w : Window) : compute_money_flows gics_sectors w = rows0 := by
  cases w <;>
    simp [compute_money_flows, sectorRow, collectChanges, changesStep,
      gics_sectors, rows0]

theorem cycle1_flows (w : Window) :
    (refresh (date_offsets 0) env1 (initState 0)).money_flows w = rows1 := by
  show compute_money_flows (collect_sector_data P1 (date_offsets 0)
    (some [("AAA", "Energy")]) gics_sectors).2 w = rows1
  rw [collect_env1_eval]
  exact compute_sectors1 w

theorem cycle2_sectors :
    (refresh (date_offsets 0) envSkip (refresh (date_offsets 0) env1
      (initState 0))).sectors = sectors1 := by
  show (collect_sector_data P0 (date_offsets 0) (some [("AAA", "Energy")])
    (refresh (date_offsets 0) env1 (initState 0)).sectors).1 = sectors1
  rw [cycle1_sectors, collect_P0]

theorem cycle2_flows (w : Window) :
    (refresh (date_offsets 0) envSkip (refresh (date_offsets 0) env1
      (initState 0))).money_flows w = rows1 := by
  show compute_money_flows (collect_sector_data P0 (date_offsets 0)
    (some [("AAA", "Energy")])
    (refresh (date_offsets 0) env1 (initState 0)).sectors).2 w = rows1
  rw [cycle1_sectors, collect_P0]
  exact compute_sectors1 w

theorem contribOne_none_of_unusable (w : Window) (p : String × TickerData)
    (h : usableFor w p = false) : contribOne w p = none := by
  unfold usableFor at h
  unfold contribOne
  cases hm : p.2.mcap w with
  | none => rfl
  | some past =>
      rw [hm] at h
      by_cases ht : p.2.market_cap_today = 0
      · simp [ht]
      · simp [ht] at h
        simp [h]

theorem contribPairs_filter (ts : SectorTickers) (w : Window) :
    contribPairs (ts.filter (usableFor w)) w = contribPairs ts w := by
  induction ts with
  | nil => rfl
  | cons p rest ih =>
      rw [List.filter_cons]
      by_cases hu : usableFor w p = true
      · simp only [hu, if_true]
        unfold contribPairs at ih ⊢
        rw [List.filterMap_cons, List.filterMap_cons]
        cases h : contribOne w p <;> simp [h, ih]
      · have hu' : usableFor w p = false := by
          cases hxx : usableFor w p
          · rfl
          · exact absurd hxx hu
        simp only [hu', Bool.false_eq_true, if_false]
        unfold contribPairs at ih ⊢
        rw [ih, List.filterMap_cons, contribOne_none_of_unusable w p hu']

theorem zero_not_mem_denominators (ts : SectorTickers) (w : Window) :
    (0 : ℚ) ∉ denominators ts w := by
  intro hmem
  unfold denominators at hmem
  rw [List.mem_filterMap] at hmem
  obtain ⟨p, _, hp⟩ := hmem
  revert hp
  cases hm : p.2.mcap w with
  | none => simp
  | some past =>
      simp only []
      by_cases hc : p.2.market_cap_today ≠ 0 ∧ past ≠ 0
      · rw [if_pos hc]
        intro hp
        exact hc.2 (Option.some.inj hp)
      · rw [if_neg hc]
        intro hp
        exact Option.noConfusion hp

theorem appState_reclock_sectors (t0 : ℤ) (env : ℕ → CycleEnv) (c : ℕ → ℤ) :
    ∀ n, (appState t0 (reclock env c) n).sectors = (appState t0 env n).sectors := by
  intro n
  induction n with
  | zero => rfl
  | succ n ih =>
      show (collect_sector_data (env (n + 1)).provider (date_offsets t0)
          (env (n + 1)).constituents (appState t0 (reclock env c) n).sectors).1
        = (collect_sector_data (env (n + 1)).provider (date_offsets t0)
          (env (n + 1)).constituents (appState t0 env n).sectors).1
      rw [ih]

theorem rowHistDates_subset (P : Provider) (offs : Window → ℤ) (g : GicsData)
    (sym sec : String) :
    rowHistDates P offs g sym sec ⊆ [offs .w1d, offs .w1w, offs .w1m] := by
  simp only [rowHistDates]
  by_cases hk : hasKey g sec
  · rw [if_pos hk]
    cases P.price (normalizeTicker sym) none with
    | none => simp
    | some cp =>
        cases P.cap (normalizeTicker sym) with
        | none => simp
        | some cc =>
            by_cases hz : cp = 0 ∨ cc = 0
            · simp [hz]
            · simp [hz]
  · rw [if_neg hk]
    simp

theorem rowsHistDates_subset (P : Provider) (offs : Window → ℤ) :
    ∀ (rows : List (String × String)) (g : GicsData),
      rowsHistDates P offs rows g ⊆ [offs .w1d, offs .w1w, offs .w1m] := by
  intro rows
  induction rows with
  | nil => intro g; simp [rowsHistDates]
  | cons r rest ih =>
      intro g
      rw [rowsHistDates]
      exact List.append_subset.mpr ⟨rowHistDates_subset P offs g r.1 r.2, ih _⟩

theorem cycleHistDates_subset (P : Provider) (offs : Window → ℤ)
    (constituents : Option (List (String × String))) (s : GicsData) :
    cycleHistDates P offs constituents s ⊆ [offs .w1d, offs .w1w, offs .w1m] := by
  cases constituents with
  | none => simp [cycleHistDates]
  | some rows => exact rowsHistDates_subset P offs rows s

/-! ### Claim theorems -/

/-- Claim C1, amended: when the constituent fetch fails, the refresh cycle
does not leave the previously published result intact — `collect_sector_data`
returns the empty dict, so the cycle replaces `money_flows` with the empty
aggregation (an empty row list for every window) and the display consumes
that blank result; only the internal `gics_sectors` accumulator is left
untouched. -/
theorem failed_fetch_blanks_published_result (offs : Window → ℤ) (P : Provider)
    (c : ℤ) (st : DashState) (w : Window) :
    (refresh offs { provider := P, constituents := none, clock := c } st).money_flows w
        = []
    ∧ (refresh offs { provider := P, constituents := none, clock := c } st).sectors
        = st.sectors :=
  ⟨rfl, rfl⟩

/-- Claim C1, counterexample: after a successful cycle has published six
rows, a cycle whose constituent fetch fails changes the result consumed by
the display — it becomes empty instead of staying equal to the prior
result. -/
theorem failed_fetch_result_changes :
    (refresh (date_offsets 0) envFail (refresh (date_offsets 0) env1
      (initState 0))).money_flows .w1d
      ≠ (refresh (date_offsets 0) env1 (initState 0)).money_flows .w1d := by
  rw [cycle1_flows]
  show ([] : List FlowRow) ≠ rows1
  simp [rows1]

/-- Claim C2, amended: a tracked sector with zero tickers contributing to a
window is not omitted from that window's rows — `compute_money_flows`
iterates over every sector key of the dict and emits a zero-valued row
(`pct_change = 0`, `abs_change_millions = 0`) for it. -/
theorem empty_sector_emits_zero_row (g : GicsData) (s : String)
    (ts : SectorTickers) (w : Window) (hmem : (s, ts) ∈ g)
    (hempty : contribPairs ts w = []) :
    FlowRow.mk s 0 0 ∈ compute_money_flows g w := by
  have hrow : sectorRow s ts w = ⟨s, 0, 0⟩ := by
    rw [sectorRow_eq_spec]
    exact spec_row_empty s ts w hempty
  unfold compute_money_flows
  exact hrow ▸ List.mem_map_of_mem (fun p => sectorRow p.1 p.2 w) hmem

/-- Witness for C2's amended theorem: the Energy sector with its empty
ticker dict yields the zero row in the pristine state. -/
theorem empty_sector_emits_zero_row_witness :
    FlowRow.mk "Energy" 0 0 ∈ compute_money_flows gics_sectors .w1d :=
  empty_sector_emits_zero_row gics_sectors "Energy" [] .w1d (by simp [gics_sectors])
    rfl

/-- Claim C2, counterexample: in a full cycle in which every ticker is
skipped, the published window rows still contain the zero row for Energy
even though the snapshot set records no ticker for Energy (in particular
Energy is not absent from the row sequence). -/
theorem empty_sector_zero_row_published :
    FlowRow.mk "Energy" 0 0 ∈ (refresh (date_offsets 0) envSkip
      (initState 0)).money_flows .w1d
    ∧ ("Energy", ([] : SectorTickers)) ∈ (refresh (date_offsets 0) envSkip
      (initState 0)).gics_data := by
  constructor
  · show FlowRow.mk "Energy" 0 0 ∈ compute_money_flows (collect_sector_data P0
      (date_offsets 0) (some [("AAA", "Energy")]) gics_sectors).2 .w1d
    rw [collect_P0, compute_gics0]
    simp [rows0]
  · show ("Energy", ([] : SectorTickers)) ∈ (collect_sector_data P0
      (date_offsets 0) (some [("AAA", "Energy")]) gics_sectors).2
    rw [collect_P0]
    simp [gics_sectors]

/-- Claim C3: for every snapshot set and window, the rows of
`compute_money_flows` are exactly the spec's SectorAggregate rows — the
unweighted arithmetic mean of the per-ticker percentage changes and the sum
of the per-ticker absolute changes divided by 1,000,000, per sector in dict
order — and a sector whose contributing set is empty gets 0 for both. -/
theorem flows_are_mean_and_scaled_sum (g : GicsData) (w : Window) (s : String)
    (ts : SectorTickers) (hempty : contribPairs ts w = []) :
    compute_money_flows g w = g.map (fun p => spec_sector_row p.1 p.2 w)
    ∧ spec_sector_row s ts w = ⟨s, 0, 0⟩ := by
  constructor
  · simp only [compute_money_flows, sectorRow_eq_spec]
  · exact spec_row_empty s ts w hempty

/-- Witness for C3: the rows over the one-ticker Energy state, and the zero
row of an empty contributing set. -/
theorem flows_are_mean_and_scaled_sum_witness :
    compute_money_flows sectors1 .w1d
        = sectors1.map (fun p => spec_sector_row p.1 p.2 .w1d)
    ∧ spec_sector_row "Energy" [] .w1d = ⟨"Energy", 0, 0⟩ :=
  flows_are_mean_and_scaled_sum sectors1 .w1d "Energy" [] rfl

/-- Claim C4, amended: the Historical Cap Estimator returns
`(historical_price / current_price) * current_cap` when the current price,
the current cap and the historical price are all available and nonzero; it
returns unavailable when the current price is zero or unavailable, when the
current cap is zero or unavailable, and also when the historical price is
zero or unavailable (the source tests Python truthiness, under which the
value 0 is treated the same as a missing value). -/
theorem estimator_scales_by_price_ratio (cp cc hp : ℚ) (h1 : cp ≠ 0)
    (h2 : cc ≠ 0) (h3 : hp ≠ 0) :
    estimate_historical_cap (some cp) (some cc) (some hp) = some ((hp / cp) * cc)
    ∧ estimate_historical_cap (some 0) (some cc) (some hp) = none
    ∧ estimate_historical_cap none (some cc) (some hp) = none
    ∧ estimate_historical_cap (some cp) none (some hp) = none
    ∧ estimate_historical_cap (some cp) (some 0) (some hp) = none
    ∧ estimate_historical_cap (some cp) (some cc) none = none
    ∧ estimate_historical_cap (some cp) (some cc) (some 0) = none := by
  refine ⟨?_, ?_, rfl, rfl, ?_, ?_, ?_⟩ <;>
    simp [estimate_historical_cap, h1, h2, h3]

/-- Witness for C4's amended theorem: the spec's own concrete case, 100 /
1,000,000 / 80 giving 800,000, and the zero current price giving
unavailable. -/
theorem estimator_scales_by_price_ratio_witness :
    estimate_historical_cap (some 100) (some 1000000) (some 80) = some 800000
    ∧ estimate_historical_cap (some 0) (some 1000000) (some 80) = none := by
  have h := estimator_scales_by_price_ratio 100 1000000 80 (by norm_num)
    (by norm_num) (by norm_num)
  refine ⟨?_, h.2.1⟩
  rw [h.1]
  norm_num

/-- Claim C4, counterexample: with the current price available and nonzero
(100), the current cap available (1,000,000) and the historical price
available but zero, the code returns unavailable, not the value
`(historical_price / current_price) * current_cap` the claim's general rule
prescribes. -/
theorem estimator_zero_hist_price_unavailable :
    estimate_historical_cap (some 100) (some 1000000) (some 0) = none
    ∧ estimate_historical_cap (some 100) (some 1000000) (some 0)
        ≠ some ((0 / 100) * 1000000) := by
  constructor <;> simp [estimate_historical_cap]

/-- Claim C5, amended: the published rows are indeed rebuilt every cycle
from the snapshot set the cycle ends with, and the previous rows are
discarded; but that snapshot set is not rebuilt from scratch — it is the
persistent `gics_sectors` dict updated in place, so a cycle that updates no
ticker (here: an empty constituent list) republishes aggregates computed
entirely from per-ticker data gathered in earlier cycles. -/
theorem rows_rebuilt_but_snapshots_persist (offs : Window → ℤ) (e : CycleEnv)
    (st : DashState) (w : Window) (P : Provider) (c : ℤ) :
    (refresh offs e st).money_flows w
        = compute_money_flows (refresh offs e st).gics_data w
    ∧ (refresh offs { provider := P, constituents := some [], clock := c } st).sectors
        = st.sectors
    ∧ (refresh offs { provider := P, constituents := some [], clock := c } st).money_flows w
        = compute_money_flows st.sectors w :=
  ⟨rfl, rfl, rfl⟩

/-- Claim C5, counterexample: in a second cycle whose own collection gathers
nothing (every snapshot request fails), the published aggregates are not
those computed from that cycle's collection alone — the AAA data gathered in
cycle one still contributes, so the result differs from what the same
collection would produce from scratch. -/
theorem stale_ticker_contributes_next_cycle :
    (refresh (date_offsets 0) envSkip (refresh (date_offsets 0) env1
      (initState 0))).money_flows .w1d
      ≠ compute_money_flows (collect_sector_data P0 (date_offsets 0)
          (some [("AAA", "Energy")]) gics_sectors).2 .w1d := by
  rw [cycle2_flows, collect_P0, compute_gics0]
  simp [rows1, rows0]

/-- Claim C7, amended: within a single collection cycle, a ticker whose
current price or current market cap is missing (or zero, which Python
truthiness treats the same) is not inserted into and does not update the
snapshot set — the row loop leaves the dict exactly as it was.  It can
nevertheless appear in aggregates through an entry a previous cycle left in
the persistent dict. -/
theorem missing_today_ticker_not_inserted (P : Provider) (offs : Window → ℤ)
    (g : GicsData) (sym sec : String)
    (h : P.price (normalizeTicker sym) none = none
       ∨ P.price (normalizeTicker sym) none = some 0
       ∨ P.cap (normalizeTicker sym) = none
       ∨ P.cap (normalizeTicker sym) = some 0) :
    processRow P offs g sym sec = g :=
  processRow_skip P offs g sym sec h

/-- Witness for C7's amended theorem: the dead provider leaves the pristine
dict unchanged for the AAA row. -/
theorem missing_today_ticker_not_inserted_witness :
    processRow P0 (date_offsets 0) gics_sectors "AAA" "Energy" = gics_sectors :=
  missing_today_ticker_not_inserted P0 (date_offsets 0) gics_sectors "AAA" "Energy"
    (Or.inl rfl)

/-- Claim C7, counterexample: in cycle two the current price of AAA is
missing, yet AAA is still in the snapshot set (with the data of cycle one)
and still contributes to cycle two's Energy aggregate: the exclusion does
not extend across refresh cycles. -/
theorem missing_price_ticker_still_aggregated :
    P0.price (normalizeTicker "AAA") none = none
    ∧ ("Energy", [("AAA", data1)]) ∈ (refresh (date_offsets 0) envSkip
        (refresh (date_offsets 0) env1 (initState 0))).sectors
    ∧ FlowRow.mk "Energy" 100 (1/2000) ∈ (refresh (date_offsets 0) envSkip
        (refresh (date_offsets 0) env1 (initState 0))).money_flows .w1d := by
  refine ⟨rfl, ?_, ?_⟩
  · rw [cycle2_sectors]
    simp [sectors1]
  · rw [cycle2_flows]
    simp [rows1]

/-- Claim C8: the aggregation is total by construction, and a ticker whose
window cap is missing or zero, or whose current cap is zero, contributes
nothing: filtering the ticker dict down to the usable tickers changes no
sector row, and the percentage division is only ever performed with a
nonzero denominator. -/
theorem unusable_tickers_contribute_nothing (s : String) (ts : SectorTickers)
    (w : Window) :
    sectorRow s (ts.filter (usableFor w)) w = sectorRow s ts w
    ∧ (0 : ℚ) ∉ denominators ts w := by
  constructor
  · rw [sectorRow_eq_spec, sectorRow_eq_spec]
    unfold spec_sector_row
    rw [contribPairs_filter]
  · exact zero_not_mem_denominators ts w

/-- Claim C9: a ticker with a derived cap for window `w1` and none for
window `w2` contributes its percentage and absolute change at `w1` — its
pair appears at its position among the contributions — and contributes
nothing at `w2`: the `w2` row is the one computed without the ticker. -/
theorem partial_participation_across_windows (s t : String) (d : TickerData)
    (pre post : SectorTickers) (w1 w2 : Window) (v : ℚ)
    (h0 : d.market_cap_today ≠ 0) (h1 : d.mcap w1 = some v) (h2 : v ≠ 0)
    (h3 : d.mcap w2 = none) :
    contribPairs (pre ++ (t, d) :: post) w1
      = contribPairs pre w1 ++
          (((d.market_cap_today - v) / v) * 100, d.market_cap_today - v) ::
            contribPairs post w1
    ∧ sectorRow s (pre ++ (t, d) :: post) w2 = sectorRow s (pre ++ post) w2 := by
  constructor
  · have hone : contribOne w1 (t, d)
        = some (((d.market_cap_today - v) / v) * 100, d.market_cap_today - v) := by
      unfold contribOne
      rw [h1]
      simp [h0, h2]
    unfold contribPairs
    rw [List.filterMap_append, List.filterMap_cons, hone]
  · have hnone : contribOne w2 (t, d) = none := by
      unfold contribOne
      rw [h3]
    have hpairs : contribPairs (pre ++ (t, d) :: post) w2
        = contribPairs (pre ++ post) w2 := by
      unfold contribPairs
      rw [List.filterMap_append, List.filterMap_cons, hnone, List.filterMap_append]
    rw [sectorRow_eq_spec, sectorRow_eq_spec]
    unfold spec_sector_row
    rw [hpairs]

/-- Witness for C9: the fixture ticker has a cap for 1d and none for 1m; it
contributes the pair (100, 500) at 1d and leaves the 1m row that of the
empty dict. -/
theorem partial_participation_across_windows_witness :
    contribPairs ([] ++ ("AAA", dWit) :: []) .w1d
      = contribPairs [] .w1d ++
          (((dWit.market_cap_today - 500) / 500) * 100, dWit.market_cap_today - 500) ::
            contribPairs [] .w1d
    ∧ sectorRow "Energy" ([] ++ ("AAA", dWit) :: []) .w1m
        = sectorRow "Energy" ([] ++ []) .w1m :=
  partial_participation_across_windows "Energy" "AAA" dWit [] [] .w1d .w1m 500
    (by norm_num [dWit]) rfl (by norm_num) rfl

/-- Claim C10: the three historical as-of dates are fixed once from the
process-start clock — replacing the wall-clock times of every later timer
tick changes no date any cycle queries, and every as-of date any cycle ever
sends to the Snapshot Provider is one of start − 1 day, start − 7 days,
start − 28 days, exactly as in cycle zero. -/
theorem asof_dates_fixed_at_start (t0 : ℤ) (env : ℕ → CycleEnv) (c : ℕ → ℤ)
    (n : ℕ) :
    appCycleHistDates t0 (reclock env c) n = appCycleHistDates t0 env n
    ∧ appCycleHistDates t0 env n ⊆ [t0 - 1, t0 - 7, t0 - 28] := by
  constructor
  · cases n with
    | zero => rfl
    | succ n =>
        simp only [appCycleHistDates, reclock]
        rw [appState_reclock_sectors]
  · cases n with
    | zero => exact cycleHistDates_subset _ _ _ _
    | succ n => exact cycleHistDates_subset _ _ _ _

end MoneyFlow
